import Mathlib

/-!
A shallow embedding of the pipeline execution core of the model server
(PipelineFactory, PipelineDefinition lifecycle, custom-node output
validation, and the demultiplex / gather data flow exercised by the
ensemble-flow tests).

The registry operations are translated from src/pipeline_factory.cpp.
The node libraries (add_sub, perform_different_operations, choose_maximum),
the dummy DL model and the CustomNode output validation are not part of the
sources, so those parts are modelled from the spec, with the concrete
scenarios taken from src/test/ensemble_flow_custom_node_tests.cpp.
Tensor element values are modelled as exact rationals; on every concrete
input appearing below the C++ float computation is within the 0.001
tolerance the tests use, and on most it is exact.
-/

/-- Status codes surfaced by the pipeline core (spec section 6). -/
inductive StatusCode where
  | OK
  | PIPELINE_DEFINITION_ALREADY_EXIST
  | PIPELINE_DEFINITION_NAME_MISSING
  | PIPELINE_DEFINITION_NOT_LOADED_YET
  | PIPELINE_DEFINITION_NOT_LOADED_ANYMORE
  | NODE_LIBRARY_MISSING_SYMBOLS
  | NODE_LIBRARY_INVALID_PATH
  | NODE_LIBRARY_EXECUTION_FAILED
  | NODE_LIBRARY_OUTPUTS_CORRUPTED
  | NODE_LIBRARY_OUTPUTS_CORRUPTED_COUNT
  | NODE_LIBRARY_MISSING_OUTPUT
  | NODE_LIBRARY_INVALID_PRECISION
  | NODE_LIBRARY_INVALID_SHAPE
  | NODE_LIBRARY_INVALID_CONTENT_SIZE
  | MODEL_MISSING
  | MODEL_VERSION_MISSING
  | INFERENCE_FAILED
  | DEMULTIPLEXER_LIMIT_EXCEEDED
  | DEADLINE_EXCEEDED
  | UNKNOWN_ERROR
deriving DecidableEq, Repr

/-- Precision enum of the custom-node ABI (spec section 3; the test file uses
FP32 and UNSPECIFIED through CustomNodeTensorPrecision). -/
inductive CustomNodeTensorPrecision where
  | FP32
  | FP16
  | INT64
  | INT32
  | INT16
  | INT8
  | UINT8
  | UNSPECIFIED
deriving DecidableEq, Repr

/-- Byte size of one element of each recognized precision (spec section 3:
byte length equals product of dims times sizeof precision). -/
def precisionSize : CustomNodeTensorPrecision → Nat
  | .FP32 => 4
  | .FP16 => 2
  | .INT64 => 8
  | .INT32 => 4
  | .INT16 => 2
  | .INT8 => 1
  | .UINT8 => 1
  | .UNSPECIFIED => 0

/-- A precision is recognized when it is a proper member of the enum;
UNSPECIFIED is the unrecognized marker (spec section 4.2 rule 3). -/
def recognizedPrecision : CustomNodeTensorPrecision → Bool
  | .UNSPECIFIED => false
  | _ => true

/-- One output tensor as returned by a custom-node library across the ABI:
name, precision, dims buffer and data byte length (struct CustomNodeTensor
of the test file, without the raw data pointer). -/
structure CustomNodeTensor where
  name : String
  precision : CustomNodeTensorPrecision
  dims : List Nat
  dataLength : Nat
deriving DecidableEq, Repr

/-- What a mock custom-node library writes during execute: the return code,
the output-array handle (none models a null pointer) and the reported
outputsNum (mirrors the Library* structs of the test file). -/
structure MockNodeLibrary where
  executeReturn : Int
  handle : Option (List CustomNodeTensor)
  outputsNum : Nat
deriving DecidableEq, Repr

/-- Modelled from the spec: per-output validation done by CustomNode after a
successful library execute (spec section 4.2 rules 3..5, in that order);
custom_node.cpp is not among the sources. -/
def validateTensor (t : CustomNodeTensor) : Except StatusCode Unit :=
  if ¬ recognizedPrecision t.precision then
    Except.error StatusCode.NODE_LIBRARY_INVALID_PRECISION
  else if t.dims = [] ∨ t.dims.any (fun d => decide (d < 1)) then
    Except.error StatusCode.NODE_LIBRARY_INVALID_SHAPE
  else if t.dataLength ≠ t.dims.prod * precisionSize t.precision then
    Except.error StatusCode.NODE_LIBRARY_INVALID_CONTENT_SIZE
  else
    Except.ok ()

/-- Validate every output in order, stopping at the first violated rule. -/
def validateTensors : List CustomNodeTensor → Except StatusCode Unit
  | [] => Except.ok ()
  | t :: ts =>
    match validateTensor t with
    | Except.error e => Except.error e
    | Except.ok _ => validateTensors ts

/-- Modelled from the spec: the CustomNode execute wrapper (custom_node.cpp
is not among the sources). It calls the library execute, then checks, in
the order of spec section 4.2: non-zero return code, null output handle,
output count against the declared count, presence of every alias required
by downstream edges, and the per-output rules. -/
def customNodeExecute (lib : MockNodeLibrary) (requiredAliases : List String)
    (declaredCount : Nat) : Except StatusCode (List CustomNodeTensor) :=
  if lib.executeReturn ≠ 0 then
    Except.error StatusCode.NODE_LIBRARY_EXECUTION_FAILED
  else
    match lib.handle with
    | none => Except.error StatusCode.NODE_LIBRARY_OUTPUTS_CORRUPTED
    | some ts =>
      if lib.outputsNum ≠ declaredCount then
        Except.error StatusCode.NODE_LIBRARY_OUTPUTS_CORRUPTED_COUNT
      else if requiredAliases.any (fun a => (ts.find? (fun t => t.name == a)).isNone) then
        Except.error StatusCode.NODE_LIBRARY_MISSING_OUTPUT
      else
        match validateTensors ts with
        | Except.error e => Except.error e
        | Except.ok _ => Except.ok ts

/-- Output alias of the add_sub custom node required by the single-node test
pipeline (the test fixture constant customNodeOutputName). -/
def customNodeOutputName : String := "output_numbers"

/-- Name under which the test pipelines expose their single output. -/
def pipelineOutputName : String := "pipeline_output"

/-- Modelled from the spec: Pipeline execute for the single custom-node
pipeline Entry - CustomNode - Exit built by
prepareSingleNodePipelineWithLibraryMock in the test file (pipeline.cpp is
not among the sources). On a node error the pipeline returns that first
non-OK status and the response stays unpopulated (spec sections 4.4 and 7);
on success the exit node writes the single connected output. -/
def singleNodePipelineExecute (lib : MockNodeLibrary) :
    StatusCode × List (String × CustomNodeTensor) :=
  match customNodeExecute lib [customNodeOutputName] 1 with
  | Except.error e => (e, [])
  | Except.ok ts =>
    match ts.find? (fun t => t.name == customNodeOutputName) with
    | some t => (StatusCode.OK, [(pipelineOutputName, t)])
    | none => (StatusCode.OK, [])

/-- The LibraryFailInExecute mock of the test file: execute returns 1. -/
def LibraryFailInExecute : MockNodeLibrary :=
  { executeReturn := 1, handle := none, outputsNum := 0 }

/-- The LibraryCorruptedOutputHandle mock: execute succeeds, writes a null
handle and reports n outputs (the test uses n = 5). -/
def LibraryCorruptedOutputHandle (n : Nat) : MockNodeLibrary :=
  { executeReturn := 0, handle := none, outputsNum := n }

/-- The LibraryCorruptedOutputsNumber mock: execute succeeds, writes a
non-null handle and reports 0 outputs where 1 is declared. -/
def LibraryCorruptedOutputsNumber : MockNodeLibrary :=
  { executeReturn := 0, handle := some [], outputsNum := 0 }

/-- The LibraryMissingOutput mock: one well-formed FP32 output named
random_not_connected_output instead of the required output_numbers. -/
def LibraryMissingOutput : MockNodeLibrary :=
  { executeReturn := 0
    handle := some [{ name := "random_not_connected_output"
                      precision := .FP32, dims := [1], dataLength := 4 }]
    outputsNum := 1 }

/-- The LibraryIncorrectOutputPrecision mock: the required output carries the
UNSPECIFIED precision; its dims buffer is allocated with one entry whose
value the mock never initializes, hence the parameter d. -/
def LibraryIncorrectOutputPrecision (d : Nat) : MockNodeLibrary :=
  { executeReturn := 0
    handle := some [{ name := "output_numbers"
                      precision := .UNSPECIFIED, dims := [d], dataLength := 1 }]
    outputsNum := 1 }

/-- The LibraryIncorrectOutputShape mock: the required output has a null dims
buffer of length 0. -/
def LibraryIncorrectOutputShape : MockNodeLibrary :=
  { executeReturn := 0
    handle := some [{ name := "output_numbers"
                      precision := .FP32, dims := [], dataLength := 1 }]
    outputsNum := 1 }

/-- The LibraryIncorrectOutputContentSize mock: the required FP32 output has
one dim (allocated, never initialized by the mock, hence the parameter d)
and a data byte length of 0. -/
def LibraryIncorrectOutputContentSize (d : Nat) : MockNodeLibrary :=
  { executeReturn := 0
    handle := some [{ name := "output_numbers"
                      precision := .FP32, dims := [d], dataLength := 0 }]
    outputsNum := 1 }

/-- Lifecycle states of a PipelineDefinition (spec section 3). -/
inductive PipelineDefinitionStateCode where
  | BEGIN
  | LOADING_PRECONDITION_FAILED
  | LOADED
  | LOADED_REQUIRES_REVALIDATION
  | RETIRED
  | AVAILABLE_REQUIRING_REVALIDATION
deriving DecidableEq, Repr

/-- The lifecycle-relevant part of a PipelineDefinition. -/
structure PipelineDefinition where
  state : PipelineDefinitionStateCode
deriving DecidableEq, Repr

/-- Modelled from the spec: PipelineDefinition validate transitions (spec
section 4.3: success moves to LOADED, failure to
LOADING_PRECONDITION_FAILED); pipelinedefinition.cpp is not among the
sources. -/
def definitionValidate (ok : Bool) (_d : PipelineDefinition) : PipelineDefinition :=
  { state := if ok then .LOADED else .LOADING_PRECONDITION_FAILED }

/-- Modelled from the spec: PipelineDefinition reload builds and validates a
new blueprint (spec section 4.3); the result state follows the validate
contract, as the tests ReferenceMissingLibraryThenCorrect and
ReferenceLibraryWithRestrictedBasePathThenCorrect observe. -/
def definitionReload (d : PipelineDefinition) (validationOk : Bool) : PipelineDefinition :=
  definitionValidate validationOk d

/-- Modelled from the spec: retire moves the definition to RETIRED (spec
section 4.3). -/
def definitionRetire (_d : PipelineDefinition) : PipelineDefinition :=
  { state := .RETIRED }

/-- Modelled from the spec: status returned by PipelineDefinition create for
each lifecycle state (pipelinedefinition.cpp is not among the sources).
Only LOADED admits creations (spec section 3); a RETIRED definition fails
with PIPELINE_DEFINITION_NAME_MISSING (spec section 4.3); a definition that
is not loaded fails with PIPELINE_DEFINITION_NOT_LOADED_YET, as the reload
tests of the test file observe. -/
def definitionCreateStatus (d : PipelineDefinition) : StatusCode :=
  match d.state with
  | .LOADED => StatusCode.OK
  | .RETIRED => StatusCode.PIPELINE_DEFINITION_NAME_MISSING
  | _ => StatusCode.PIPELINE_DEFINITION_NOT_LOADED_YET

/-- The factory registry: definition name to owned definition
(PipelineFactory::definitions of src/pipeline_factory.cpp). -/
abbrev Factory := List (String × PipelineDefinition)

/-- PipelineFactory::definitionExists (src/pipeline_factory.cpp lines
25..28). -/
def definitionExists (f : Factory) (name : String) : Bool :=
  (f.lookup name).isSome

/-- PipelineFactory::create (src/pipeline_factory.cpp lines 75..88): a name
absent from the registry fails with PIPELINE_DEFINITION_NAME_MISSING,
otherwise the call is delegated to the definition. -/
def factoryCreateStatus (f : Factory) (name : String) : StatusCode :=
  match f.lookup name with
  | none => StatusCode.PIPELINE_DEFINITION_NAME_MISSING
  | some d => definitionCreateStatus d

/-- PipelineFactory::retireOtherThan (src/pipeline_factory.cpp lines
40..48): every registered definition whose name is not in the keep set and
whose state is not already RETIRED is retired; nothing is erased from the
registry. -/
def retireOtherThan (keep : List String) : Factory → Factory
  | [] => []
  | p :: t =>
    (if p.1 ∈ keep ∨ p.2.state = PipelineDefinitionStateCode.RETIRED then p
     else (p.1, definitionRetire p.2)) :: retireOtherThan keep t

/-- PipelineFactory::createDefinition (src/pipeline_factory.cpp lines
50..73) over the registry and the set of definition names holding model
subscriptions: a duplicate name is rejected up front; otherwise the new
definition subscribes, is validated, and on validation failure the
subscriptions are reset and the error is returned with the registry
untouched; on success the definition is installed. The validation outcome
and its error code are parameters because validate lives outside the
sources. -/
def factoryCreateDefinition (f : Factory) (subs : List String) (name : String)
    (validationOk : Bool) (validationError : StatusCode) :
    StatusCode × Factory × List String :=
  if definitionExists f name then
    (StatusCode.PIPELINE_DEFINITION_ALREADY_EXIST, f, subs)
  else
    let subsAfter := name :: subs
    if validationOk then
      (StatusCode.OK, (name, { state := .LOADED }) :: f, subsAfter)
    else
      (validationError, f, subsAfter.erase name)

/-- A tensor flowing through a pipeline: precision, dims and exact rational
element values. -/
structure FlowTensor where
  precision : CustomNodeTensorPrecision
  dims : List Nat
  values : List ℚ
deriving DecidableEq, Repr

/-- EntryNode materialization of a request input prepared by prepareRequest
of the test file: FP32 data of shape [1, n]. -/
def entryNodeTensor (data : List ℚ) : FlowTensor :=
  { precision := .FP32, dims := [1, data.length], values := data }

/-- Modelled from the spec: the add_sub custom-node library
(lib_node_add_sub.so is not among the sources): each element becomes
value + add_value - sub_value, with shape and precision preserved. -/
def addSubNodeExecute (addValue subValue : ℚ) (t : FlowTensor) : FlowTensor :=
  { t with values := t.values.map (fun x => x + addValue - subValue) }

/-- The AddSubCustomNode test pipeline Entry - CustomNode(add, sub) - Exit:
the exit node writes the single connected output under
pipelineOutputName. -/
def addSubPipelineExecute (addValue subValue : ℚ) (input : List ℚ) :
    StatusCode × List (String × FlowTensor) :=
  (StatusCode.OK,
    [(pipelineOutputName, addSubNodeExecute addValue subValue (entryNodeTensor input))])

/-- Selection criteria of the choose_maximum library (enum Method of the
test file). -/
inductive Method where
  | MAXIMUM_MAXIMUM
  | MAXIMUM_MINIMUM
  | MAXIMUM_AVERAGE
deriving DecidableEq, Repr

/-- Greatest element of a list of rationals (0 on the empty list, which no
caller below reaches). -/
def listMax : List ℚ → ℚ
  | [] => 0
  | [x] => x
  | x :: y :: ys => max x (listMax (y :: ys))

/-- Least element of a list of rationals (0 on the empty list, which no
caller below reaches). -/
def listMin : List ℚ → ℚ
  | [] => 0
  | [x] => x
  | x :: y :: ys => min x (listMin (y :: ys))

/-- Sum of a list of rationals. -/
def listSum : List ℚ → ℚ
  | [] => 0
  | x :: xs => x + listSum xs

/-- Modelled from the spec: the per-shard score the choose_maximum library
assigns under each selection criteria (maximum element, minimum element, or
average). -/
def rowScore : Method → List ℚ → ℚ
  | .MAXIMUM_MAXIMUM, r => listMax r
  | .MAXIMUM_MINIMUM, r => listMin r
  | .MAXIMUM_AVERAGE, r => listSum r / (r.length : ℚ)

/-- First row with the strictly greatest score, scanning left to right and
keeping the current best on ties (std::max_element discipline). -/
def argmaxAux (score : List ℚ → ℚ) : List ℚ → List (List ℚ) → List ℚ
  | best, [] => best
  | best, r :: rs =>
    if score best < score r then argmaxAux score r rs else argmaxAux score best rs

/-- Modelled from the spec: the choose_maximum gather library
(lib_node_choose_maximum.so is not among the sources): it receives the
gathered shards and emits the shard whose score under the selection
criteria is greatest. -/
def chooseMaximum (m : Method) : List (List ℚ) → List ℚ
  | [] => []
  | r :: rs => argmaxAux (rowScore m) r rs

/-- Modelled from the spec: the perform_different_operations demultiplexer
library (lib_node_perform_different_operations.so is not among the
sources): from the input row and the four op factors it produces the four
rows input + f0, input - f1, input * f2, input / f3 (enum OPS of the test
file), demultiplied along the leading axis. -/
def performDifferentOperations (input factors : List ℚ) : List (List ℚ) :=
  match factors with
  | [f0, f1, f2, f3] =>
    [input.map (fun x => x + f0),
     input.map (fun x => x - f1),
     input.map (fun x => x * f2),
     input.map (fun x => x / f3)]
  | _ => []

/-- Modelled from the spec: the dummy DL model adds 1 to every element
(DUMMY_ADDITION_VALUE of the test utilities). -/
def dummyModelApply (v : List ℚ) : List ℚ :=
  v.map (fun x => x + 1)

/-- One demultiplex layer of the ensemble tests: different_ops fans the
input out into four shards, the dummy DL node adds 1 to each shard, and the
gather node applies choose_maximum over the gathered shards. -/
def demuxDummyGatherLayer (m : Method) (factors v : List ℚ) : List ℚ :=
  chooseMaximum m ((performDifferentOperations v factors).map dummyModelApply)

/-- The MultipleDemultiplexerLevels pipeline: the demultiplex layer nested
the given number of times, every layer gathering by MAXIMUM_MAXIMUM and
reading its op factors from the entry node. -/
def multiDemuxPipeline (layers : Nat) (factors v : List ℚ) : List ℚ :=
  (demuxDummyGatherLayer Method.MAXIMUM_MAXIMUM factors)^[layers] v

/-- Input row of the DifferentOpsCustomNodeThenDummyThenChooseMaximum
test. -/
def c1Input : List ℚ := [0, 1, 2, 3, 4, 5, 6, 7, 8, 9]

/-- Op factors of the same test (add 1, subtract 3, multiply by 2, divide
by 2). -/
def c1Factors : List ℚ := [1, 3, 2, 2]

/-- The DifferentOpsCustomNodeThenDummyThenChooseMaximum pipeline: one
demultiplex layer gathered by MAXIMUM_MINIMUM, its result exposed as the
single pipeline output of shape [1, 10]. -/
def c1PipelineExecute : StatusCode × List (String × FlowTensor) :=
  (StatusCode.OK,
    [(pipelineOutputName,
      { precision := .FP32, dims := [1, c1Input.length],
        values := demuxDummyGatherLayer Method.MAXIMUM_MINIMUM c1Factors c1Input })])

/-- Every member of a list is at most its listMax. -/
theorem le_listMax {l : List ℚ} {x : ℚ} (hx : x ∈ l) : x ≤ listMax l := by
  induction l with
  | nil => cases hx
  | cons a t ih =>
    cases t with
    | nil =>
      rw [List.mem_singleton] at hx
      subst hx
      exact le_of_eq rfl
    | cons b t2 =>
      rcases List.mem_cons.mp hx with h | h
      · subst h
        exact le_max_left _ _
      · exact le_trans (ih h) (le_max_right _ _)

/-- listMax of a nonempty list is bounded by any upper bound of its
members. -/
theorem listMax_le {l : List ℚ} {c : ℚ} (hne : l ≠ []) (h : ∀ x ∈ l, x ≤ c) :
    listMax l ≤ c := by
  induction l with
  | nil => exact absurd rfl hne
  | cons a t ih =>
    cases t with
    | nil => exact h a (List.mem_singleton_self a)
    | cons b t2 =>
      refine max_le (h a (List.mem_cons_self a _)) (ih (List.cons_ne_nil b t2) ?_)
      intro x hx
      exact h x (List.mem_cons_of_mem a hx)

/-- listMax of a nonempty list is one of its members. -/
theorem listMax_mem {l : List ℚ} (hne : l ≠ []) : listMax l ∈ l := by
  induction l with
  | nil => exact absurd rfl hne
  | cons a t ih =>
    cases t with
    | nil => exact List.mem_singleton_self a
    | cons b t2 =>
      rcases max_choice a (listMax (b :: t2)) with h | h
      · rw [listMax, h]
        exact List.mem_cons_self a _
      · rw [listMax, h]
        exact List.mem_cons_of_mem a (ih (List.cons_ne_nil b t2))

/-- Pointwise equal functions map a list to equal lists. -/
theorem list_map_congr {α β : Type} {f g : α → β} {l : List α}
    (h : ∀ a ∈ l, f a = g a) : l.map f = l.map g := by
  induction l with
  | nil => rfl
  | cons a t ih =>
    rw [List.map_cons, List.map_cons, h a (List.mem_cons_self a t),
      ih fun b hb => h b (List.mem_cons_of_mem a hb)]

/-- The scan keeps the first row when no later row scores strictly
higher. -/
theorem argmaxAux_four_first (s : List ℚ → ℚ) (r0 r1 r2 r3 : List ℚ)
    (h1 : ¬ s r0 < s r1) (h2 : ¬ s r0 < s r2) (h3 : ¬ s r0 < s r3) :
    argmaxAux s r0 [r1, r2, r3] = r0 := by
  simp [argmaxAux, h1, h2, h3]

/-- The scan settles on the third row when it strictly beats the first, the
second does not beat the first, and the fourth does not beat the third. -/
theorem argmaxAux_four_third (s : List ℚ → ℚ) (r0 r1 r2 r3 : List ℚ)
    (h1 : ¬ s r0 < s r1) (h2 : s r0 < s r2) (h3 : ¬ s r2 < s r3) :
    argmaxAux s r0 [r1, r2, r3] = r2 := by
  simp [argmaxAux, h1, h2, h3]

/-- With factors [1, -1, 2, 2] and every input value strictly between 0 and
1, the MAXIMUM_MAXIMUM gather picks the addition shard (the subtraction
shard is element-wise identical to it), so the layer adds the factor 1 and
then the dummy 1. -/
theorem demuxLayerLow (v : List ℚ) (hne : v ≠ []) (h : ∀ x ∈ v, 0 < x ∧ x < 1) :
    demuxDummyGatherLayer Method.MAXIMUM_MAXIMUM [1, -1, 2, 2] v
      = v.map (fun x => x + 1 + 1) := by
  have hr1 : v.map (fun x => x - (-1) + 1) = v.map (fun x => x + 1 + 1) :=
    list_map_congr (fun a _ => by ring)
  have hMv : listMax v ∈ v := listMax_mem hne
  obtain ⟨hM0, hM1⟩ := h _ hMv
  have hs0 : listMax v + 1 + 1 ≤ listMax (v.map (fun x => x + 1 + 1)) :=
    le_listMax (List.mem_map_of_mem _ hMv)
  have hs2 : listMax (v.map (fun x => x * 2 + 1)) ≤ listMax v + 1 + 1 := by
    refine listMax_le (fun hc => hne (List.map_eq_nil_iff.mp hc)) ?_
    intro y hy
    rcases List.mem_map.mp hy with ⟨x, hx, rfl⟩
    have hxM : x ≤ listMax v := le_listMax hx
    have hx1 : x < 1 := (h x hx).2
    linarith
  have hs3 : listMax (v.map (fun x => x / 2 + 1)) ≤ listMax v + 1 + 1 := by
    refine listMax_le (fun hc => hne (List.map_eq_nil_iff.mp hc)) ?_
    intro y hy
    rcases List.mem_map.mp hy with ⟨x, hx, rfl⟩
    have hxM : x ≤ listMax v := le_listMax hx
    have hx0 : 0 < x := (h x hx).1
    have hhalf : x / 2 ≤ x := by linarith
    linarith
  have h1 : ¬ listMax (v.map (fun x => x + 1 + 1))
      < listMax (v.map (fun x => x - (-1) + 1)) := by
    rw [hr1]
    exact lt_irrefl _
  have h2 : ¬ listMax (v.map (fun x => x + 1 + 1))
      < listMax (v.map (fun x => x * 2 + 1)) :=
    not_lt.mpr (hs2.trans hs0)
  have h3 : ¬ listMax (v.map (fun x => x + 1 + 1))
      < listMax (v.map (fun x => x / 2 + 1)) :=
    not_lt.mpr (hs3.trans hs0)
  calc demuxDummyGatherLayer Method.MAXIMUM_MAXIMUM [1, -1, 2, 2] v
      = argmaxAux listMax (v.map fun x => x + 1 + 1)
          [v.map fun x => x - (-1) + 1, v.map fun x => x * 2 + 1,
           v.map fun x => x / 2 + 1] := by
        have hscore : rowScore Method.MAXIMUM_MAXIMUM = listMax := funext fun r => rfl
        simp only [demuxDummyGatherLayer, performDifferentOperations, dummyModelApply,
          chooseMaximum, List.map_cons, List.map_nil, List.map_map, hscore,
          Function.comp_def]
    _ = v.map (fun x => x + 1 + 1) := argmaxAux_four_first _ _ _ _ _ h1 h2 h3

/-- With factors [1, -1, 2, 2] and every input value strictly above 1, the
MAXIMUM_MAXIMUM gather picks the multiplication shard, so the layer doubles
and then the dummy adds 1. -/
theorem demuxLayerHigh (v : List ℚ) (hne : v ≠ []) (h : ∀ x ∈ v, 1 < x) :
    demuxDummyGatherLayer Method.MAXIMUM_MAXIMUM [1, -1, 2, 2] v
      = v.map (fun x => x * 2 + 1) := by
  have hr1 : v.map (fun x => x - (-1) + 1) = v.map (fun x => x + 1 + 1) :=
    list_map_congr (fun a _ => by ring)
  have hMv : listMax v ∈ v := listMax_mem hne
  have hM1 : 1 < listMax v := h _ hMv
  have hs2 : listMax v * 2 + 1 ≤ listMax (v.map (fun x => x * 2 + 1)) :=
    le_listMax (List.mem_map_of_mem _ hMv)
  have hs0 : listMax (v.map (fun x => x + 1 + 1)) ≤ listMax v + 1 + 1 := by
    refine listMax_le (fun hc => hne (List.map_eq_nil_iff.mp hc)) ?_
    intro y hy
    rcases List.mem_map.mp hy with ⟨x, hx, rfl⟩
    have hxM : x ≤ listMax v := le_listMax hx
    linarith
  have hs3 : listMax (v.map (fun x => x / 2 + 1)) ≤ listMax v * 2 + 1 := by
    refine listMax_le (fun hc => hne (List.map_eq_nil_iff.mp hc)) ?_
    intro y hy
    rcases List.mem_map.mp hy with ⟨x, hx, rfl⟩
    have hxM : x ≤ listMax v := le_listMax hx
    have hx1 : 1 < x := h x hx
    have hhalf : x / 2 ≤ x := by linarith
    linarith
  have h1 : ¬ listMax (v.map (fun x => x + 1 + 1))
      < listMax (v.map (fun x => x - (-1) + 1)) := by
    rw [hr1]
    exact lt_irrefl _
  have h2 : listMax (v.map (fun x => x + 1 + 1))
      < listMax (v.map (fun x => x * 2 + 1)) := by
    have hlt : listMax v + 1 + 1 < listMax v * 2 + 1 := by linarith
    linarith
  have h3 : ¬ listMax (v.map (fun x => x * 2 + 1))
      < listMax (v.map (fun x => x / 2 + 1)) :=
    not_lt.mpr (hs3.trans hs2)
  calc demuxDummyGatherLayer Method.MAXIMUM_MAXIMUM [1, -1, 2, 2] v
      = argmaxAux listMax (v.map fun x => x + 1 + 1)
          [v.map fun x => x - (-1) + 1, v.map fun x => x * 2 + 1,
           v.map fun x => x / 2 + 1] := by
        have hscore : rowScore Method.MAXIMUM_MAXIMUM = listMax := funext fun r => rfl
        simp only [demuxDummyGatherLayer, performDifferentOperations, dummyModelApply,
          chooseMaximum, List.map_cons, List.map_nil, List.map_map, hscore,
          Function.comp_def]
    _ = v.map (fun x => x * 2 + 1) := argmaxAux_four_third _ _ _ _ _ h1 h2 h3

/-- Iterating the layer on values that are all above 1 doubles and adds 1 in
every iteration, element-wise. -/
theorem multiDemuxHigh (n : Nat) : ∀ (v : List ℚ), v ≠ [] → (∀ x ∈ v, 1 < x) →
    (demuxDummyGatherLayer Method.MAXIMUM_MAXIMUM [1, -1, 2, 2])^[n] v
      = v.map (fun x => (fun y => y * 2 + 1)^[n] x) := by
  induction n with
  | zero =>
    intro v _ _
    simp
  | succ k ih =>
    intro v hne h
    rw [Function.iterate_succ_apply, demuxLayerHigh v hne h]
    rw [ih (v.map fun x => x * 2 + 1)
      (fun hc => hne (List.map_eq_nil_iff.mp hc))
      (by
        intro y hy
        rcases List.mem_map.mp hy with ⟨x, hx, rfl⟩
        have hx1 : 1 < x := h x hx
        linarith)]
    rw [List.map_map]
    refine list_map_congr ?_
    intro a _
    simp [Function.comp, Function.iterate_succ_apply]

/-- retireOtherThan preserves the registry keys and only rewrites the
definition stored under each name. -/
theorem lookup_retireOtherThan (keep : List String) (f : Factory) (n : String) :
    (retireOtherThan keep f).lookup n
      = (f.lookup n).map (fun d =>
          if n ∈ keep ∨ d.state = PipelineDefinitionStateCode.RETIRED then d
          else definitionRetire d) := by
  induction f with
  | nil => rfl
  | cons p t ih =>
    obtain ⟨k, d⟩ := p
    simp only [retireOtherThan]
    by_cases hc : k ∈ keep ∨ d.state = PipelineDefinitionStateCode.RETIRED
    · rw [if_pos hc]
      by_cases hnk : (n == k)
      · have hek : n = k := eq_of_beq hnk
        subst hek
        simp [List.lookup, hc]
      · simp [List.lookup, hnk, ih]
    · rw [if_neg hc]
      by_cases hnk : (n == k)
      · have hek : n = k := eq_of_beq hnk
        subst hek
        simp [List.lookup, hc]
      · simp [List.lookup, hnk, ih]

/-- C1: for the pipeline Entry, different_ops demultiplexer with
demultiply_count 4, dummy DL node adding 1, gather by MAXIMUM_MINIMUM,
Exit, on input [0..9] and factors [1, 3, 2, 2], a successful execute
populates the single pipeline output with the 10-element row of the 4 x 10
matrix (input op factor) + 1 whose minimum element is greatest; in the
exact rational model the result equals that row, which is within the 0.001
tolerance of the test. -/
theorem C1_different_ops_dummy_gather_by_minimum :
    c1PipelineExecute
      = (StatusCode.OK,
         [("pipeline_output",
           { precision := CustomNodeTensorPrecision.FP32, dims := [1, 10],
             values := [2, 3, 4, 5, 6, 7, 8, 9, 10, 11] })])
    ∧ [2, 3, 4, 5, 6, 7, 8, 9, 10, 11]
        ∈ (performDifferentOperations c1Input c1Factors).map dummyModelApply
    ∧ ∀ r ∈ (performDifferentOperations c1Input c1Factors).map dummyModelApply,
        listMin r ≤ listMin [2, 3, 4, 5, 6, 7, 8, 9, 10, 11] := by
  have hrows : (performDifferentOperations c1Input c1Factors).map dummyModelApply
      = [[2, 3, 4, 5, 6, 7, 8, 9, 10, 11],
         [-2, -1, 0, 1, 2, 3, 4, 5, 6, 7],
         [1, 3, 5, 7, 9, 11, 13, 15, 17, 19],
         [1, 3/2, 2, 5/2, 3, 7/2, 4, 9/2, 5, 11/2]] := by
    simp only [c1Input, c1Factors, performDifferentOperations, dummyModelApply,
      List.map_cons, List.map_nil]
    norm_num
  have hminA : listMin [2, 3, 4, 5, 6, 7, 8, 9, 10, 11] = (2 : ℚ) := by
    norm_num [listMin, min_def]
  have hminS : listMin [-2, -1, 0, 1, 2, 3, 4, 5, 6, 7] = (-2 : ℚ) := by
    norm_num [listMin, min_def]
  have hminM : listMin [1, 3, 5, 7, 9, 11, 13, 15, 17, 19] = (1 : ℚ) := by
    norm_num [listMin, min_def]
  have hminD : listMin [1, 3/2, 2, 5/2, 3, 7/2, 4, 9/2, 5, 11/2] = (1 : ℚ) := by
    norm_num [listMin, min_def]
  have hscore : rowScore Method.MAXIMUM_MINIMUM = listMin := funext fun r => rfl
  have hgather : demuxDummyGatherLayer Method.MAXIMUM_MINIMUM c1Factors c1Input
      = [2, 3, 4, 5, 6, 7, 8, 9, 10, 11] := by
    simp only [demuxDummyGatherLayer]
    rw [hrows]
    simp only [chooseMaximum]
    rw [hscore]
    refine argmaxAux_four_first _ _ _ _ _ ?_ ?_ ?_
    · rw [hminA, hminS]
      norm_num
    · rw [hminA, hminM]
      norm_num
    · rw [hminA, hminD]
      norm_num
  refine ⟨?_, ?_, ?_⟩
  · simp only [c1PipelineExecute]
    rw [hgather]
    simp [pipelineOutputName, c1Input]
  · rw [hrows]
    exact List.mem_cons_self _ _
  · simp only [hrows]
    intro r hr
    simp only [List.mem_cons, List.not_mem_nil, or_false] at hr
    rcases hr with rfl | rfl | rfl | rfl
    · exact le_refl _
    · rw [hminS, hminA]
      norm_num
    · rw [hminM, hminA]
      norm_num
    · rw [hminD, hminA]
      norm_num

/-- C2: ten nested demultiplex layers, each fanning out by 4 through
different_ops, adding 1 through the dummy DL node, and gathering by
MAXIMUM_MAXIMUM, compute per element the closed-form recurrence: with every
input value in (0, 1) and factors [1, -1, 2, 2], one addition of the factor
1 followed by nine multiplications by the factor 2, each of the ten steps
followed by the dummy +1. -/
theorem C2_multiple_demultiplexer_levels (v : List ℚ) (hne : v ≠ [])
    (h : ∀ x ∈ v, 0 < x ∧ x < 1) :
    multiDemuxPipeline 10 [1, -1, 2, 2] v
      = v.map (fun x => (fun y => y * 2 + 1)^[9] (x + 1 + 1)) := by
  have h10 : (10 : Nat) = 9 + 1 := rfl
  simp only [multiDemuxPipeline]
  rw [h10, Function.iterate_succ_apply, demuxLayerLow v hne h]
  rw [multiDemuxHigh 9 (v.map fun x => x + 1 + 1)
    (fun hc => hne (List.map_eq_nil_iff.mp hc))
    (by
      intro y hy
      rcases List.mem_map.mp hy with ⟨x, hx, rfl⟩
      have hx0 : 0 < x := (h x hx).1
      linarith)]
  rw [List.map_map]
  rfl

/-- Witness for C2 at the concrete input [1/5, 7/10, 1/10000] (the values
of the MultipleDemultiplexerLevels test that lie in (0, 1)). -/
theorem C2_multiple_demultiplexer_levels_witness :
    (([1/5, 7/10, 1/10000] : List ℚ) ≠ []
      ∧ ∀ x ∈ ([1/5, 7/10, 1/10000] : List ℚ), 0 < x ∧ x < 1)
    ∧ multiDemuxPipeline 10 [1, -1, 2, 2] [1/5, 7/10, 1/10000]
        = ([1/5, 7/10, 1/10000] : List ℚ).map
            (fun x => (fun y => y * 2 + 1)^[9] (x + 1 + 1)) :=
  ⟨⟨List.cons_ne_nil _ _, by norm_num [List.forall_mem_cons]⟩,
   C2_multiple_demultiplexer_levels [1/5, 7/10, 1/10000] (List.cons_ne_nil _ _)
     (by norm_num [List.forall_mem_cons])⟩

/-- C3: when the library execute returns 0 the CustomNode output validation
returns the code of the first violated rule: a required alias absent from
the outputs gives NODE_LIBRARY_MISSING_OUTPUT, an unrecognized precision
gives NODE_LIBRARY_INVALID_PRECISION, an empty dims vector gives
NODE_LIBRARY_INVALID_SHAPE, and a data byte length different from
product(shape) times sizeof(precision) gives
NODE_LIBRARY_INVALID_CONTENT_SIZE, at the four mock libraries of the test
file (the two uninitialized dims entries are universally quantified). -/
theorem C3_custom_node_output_validation :
    singleNodePipelineExecute LibraryMissingOutput
        = (StatusCode.NODE_LIBRARY_MISSING_OUTPUT, [])
    ∧ (∀ d : Nat, singleNodePipelineExecute (LibraryIncorrectOutputPrecision d)
        = (StatusCode.NODE_LIBRARY_INVALID_PRECISION, []))
    ∧ singleNodePipelineExecute LibraryIncorrectOutputShape
        = (StatusCode.NODE_LIBRARY_INVALID_SHAPE, [])
    ∧ (∀ d : Nat, 1 ≤ d →
        singleNodePipelineExecute (LibraryIncorrectOutputContentSize d)
          = (StatusCode.NODE_LIBRARY_INVALID_CONTENT_SIZE, [])) := by
  refine ⟨by decide, fun d => rfl, by decide, fun d hd => ?_⟩
  have hdz : d ≠ 0 := by omega
  have hprod : (0 : Nat) ≠ d * 4 := by omega
  simp [singleNodePipelineExecute, customNodeExecute,
    LibraryIncorrectOutputContentSize, validateTensors, validateTensor,
    recognizedPrecision, precisionSize, customNodeOutputName, hdz, hprod]

/-- Witness for C3 with both uninitialized dims entries set to 1. -/
theorem C3_custom_node_output_validation_witness :
    (1 : Nat) ≤ 1
    ∧ singleNodePipelineExecute (LibraryIncorrectOutputContentSize 1)
        = (StatusCode.NODE_LIBRARY_INVALID_CONTENT_SIZE, [])
    ∧ singleNodePipelineExecute (LibraryIncorrectOutputPrecision 1)
        = (StatusCode.NODE_LIBRARY_INVALID_PRECISION, []) :=
  ⟨by decide, C3_custom_node_output_validation.2.2.2 1 (by decide),
   C3_custom_node_output_validation.2.1 1⟩

/-- C4: a null output handle written by a successful execute that reports a
positive output count gives NODE_LIBRARY_OUTPUTS_CORRUPTED; a non-null
handle whose reported count differs from the declared count 1 gives
NODE_LIBRARY_OUTPUTS_CORRUPTED_COUNT, in particular at the
LibraryCorruptedOutputsNumber mock. -/
theorem C4_corrupted_outputs (ts : List CustomNodeTensor) (n m : Nat)
    (hn : 0 < n) (hm : m ≠ 1) :
    singleNodePipelineExecute (LibraryCorruptedOutputHandle n)
        = (StatusCode.NODE_LIBRARY_OUTPUTS_CORRUPTED, [])
    ∧ singleNodePipelineExecute
        { executeReturn := 0, handle := some ts, outputsNum := m }
        = (StatusCode.NODE_LIBRARY_OUTPUTS_CORRUPTED_COUNT, [])
    ∧ singleNodePipelineExecute LibraryCorruptedOutputsNumber
        = (StatusCode.NODE_LIBRARY_OUTPUTS_CORRUPTED_COUNT, []) := by
  refine ⟨rfl, ?_, by decide⟩
  simp [singleNodePipelineExecute, customNodeExecute, hm]

/-- Witness for C4 at the counts the two corrupted-output mocks report. -/
theorem C4_corrupted_outputs_witness :
    ((0 : Nat) < 5 ∧ (0 : Nat) ≠ 1)
    ∧ singleNodePipelineExecute (LibraryCorruptedOutputHandle 5)
        = (StatusCode.NODE_LIBRARY_OUTPUTS_CORRUPTED, [])
    ∧ singleNodePipelineExecute
        { executeReturn := 0, handle := some [], outputsNum := 0 }
        = (StatusCode.NODE_LIBRARY_OUTPUTS_CORRUPTED_COUNT, []) :=
  ⟨⟨by decide, by decide⟩,
   (C4_corrupted_outputs [] 5 0 (by decide) (by decide)).1,
   (C4_corrupted_outputs [] 5 0 (by decide) (by decide)).2.1⟩

/-- C5: whenever the library execute entry point returns a non-zero value,
the pipeline returns NODE_LIBRARY_EXECUTION_FAILED and the response stays
unpopulated. -/
theorem C5_execution_failed_response_unpopulated (lib : MockNodeLibrary)
    (h : lib.executeReturn ≠ 0) :
    singleNodePipelineExecute lib
      = (StatusCode.NODE_LIBRARY_EXECUTION_FAILED, []) := by
  simp [singleNodePipelineExecute, customNodeExecute, h]

/-- Witness for C5 at the LibraryFailInExecute mock, which returns 1. -/
theorem C5_execution_failed_response_unpopulated_witness :
    LibraryFailInExecute.executeReturn ≠ 0
    ∧ singleNodePipelineExecute LibraryFailInExecute
        = (StatusCode.NODE_LIBRARY_EXECUTION_FAILED, []) :=
  ⟨by decide,
   C5_execution_failed_response_unpopulated LibraryFailInExecute (by decide)⟩

/-- C6 counterexample: after a reload whose validation fails, a create call
on the definition returns PIPELINE_DEFINITION_NOT_LOADED_YET and does not
succeed against the old blueprint, contradicting the claim; this is the
behavior the ReferenceMissingLibraryThenCorrect and
ReferenceLibraryWithRestrictedBasePathThenCorrect tests assert. -/
theorem C6_failed_reload_counterexample :
    definitionCreateStatus
        (definitionReload { state := PipelineDefinitionStateCode.LOADED } false)
      = StatusCode.PIPELINE_DEFINITION_NOT_LOADED_YET
    ∧ definitionCreateStatus
        (definitionReload { state := PipelineDefinitionStateCode.LOADED } false)
      ≠ StatusCode.OK := by
  decide

/-- C6 amended: a failed reload of a previously LOADED definition leaves it
unable to serve, so a later create call fails with
PIPELINE_DEFINITION_NOT_LOADED_YET, until a subsequent successful reload
restores OK. -/
theorem C6_failed_reload_amended (d : PipelineDefinition)
    (h : d.state = PipelineDefinitionStateCode.LOADED) :
    definitionCreateStatus (definitionReload d false)
        = StatusCode.PIPELINE_DEFINITION_NOT_LOADED_YET
    ∧ definitionCreateStatus (definitionReload (definitionReload d false) true)
        = StatusCode.OK :=
  ⟨rfl, rfl⟩

/-- Witness for the amended C6 at a LOADED definition. -/
theorem C6_failed_reload_amended_witness :
    (PipelineDefinition.mk PipelineDefinitionStateCode.LOADED).state
        = PipelineDefinitionStateCode.LOADED
    ∧ definitionCreateStatus
        (definitionReload { state := PipelineDefinitionStateCode.LOADED } false)
      = StatusCode.PIPELINE_DEFINITION_NOT_LOADED_YET :=
  ⟨rfl,
   (C6_failed_reload_amended { state := PipelineDefinitionStateCode.LOADED } rfl).1⟩

/-- C7: after a definition registered under a name is retired, directly or
through retireOtherThan with the name absent from the keep set, a factory
create call for that name fails with PIPELINE_DEFINITION_NAME_MISSING. -/
theorem C7_retired_create_name_missing (f : Factory) (keep : List String)
    (n : String) (d : PipelineDefinition)
    (hl : f.lookup n = some d) (hk : n ∉ keep) :
    factoryCreateStatus (retireOtherThan keep f) n
        = StatusCode.PIPELINE_DEFINITION_NAME_MISSING
    ∧ definitionCreateStatus (definitionRetire d)
        = StatusCode.PIPELINE_DEFINITION_NAME_MISSING := by
  constructor
  · simp only [factoryCreateStatus, lookup_retireOtherThan, hl, Option.map_some']
    by_cases hr : d.state = PipelineDefinitionStateCode.RETIRED
    · simp [hk, hr, definitionCreateStatus]
    · simp [hk, hr, definitionRetire, definitionCreateStatus]
  · rfl

/-- Witness for C7 at a one-entry registry and an empty keep set. -/
theorem C7_retired_create_name_missing_witness :
    (([("p", ({ state := PipelineDefinitionStateCode.LOADED } :
          PipelineDefinition))] : Factory).lookup "p"
        = some { state := PipelineDefinitionStateCode.LOADED }
      ∧ "p" ∉ ([] : List String))
    ∧ factoryCreateStatus
        (retireOtherThan []
          [("p", { state := PipelineDefinitionStateCode.LOADED })]) "p"
      = StatusCode.PIPELINE_DEFINITION_NAME_MISSING :=
  ⟨⟨by decide, by decide⟩,
   (C7_retired_create_name_missing
      [("p", { state := PipelineDefinitionStateCode.LOADED })] [] "p"
      { state := PipelineDefinitionStateCode.LOADED }
      (by decide) (by decide)).1⟩

/-- C8: createDefinition on a name that is already registered returns
PIPELINE_DEFINITION_ALREADY_EXIST and leaves the registry, including the
previously registered definition, and the subscriptions unchanged. -/
theorem C8_duplicate_definition_rejected (f : Factory) (subs : List String)
    (n : String) (vOk : Bool) (err : StatusCode)
    (h : definitionExists f n = true) :
    factoryCreateDefinition f subs n vOk err
      = (StatusCode.PIPELINE_DEFINITION_ALREADY_EXIST, f, subs) := by
  simp [factoryCreateDefinition, h]

/-- Witness for C8 at a registry already holding the name. -/
theorem C8_duplicate_definition_rejected_witness :
    definitionExists
        [("p", { state := PipelineDefinitionStateCode.LOADED })] "p" = true
    ∧ factoryCreateDefinition
        [("p", { state := PipelineDefinitionStateCode.LOADED })] [] "p" true
        StatusCode.UNKNOWN_ERROR
      = (StatusCode.PIPELINE_DEFINITION_ALREADY_EXIST,
         [("p", { state := PipelineDefinitionStateCode.LOADED })], []) :=
  ⟨by decide,
   C8_duplicate_definition_rejected
     [("p", { state := PipelineDefinitionStateCode.LOADED })] [] "p" true
     StatusCode.UNKNOWN_ERROR (by decide)⟩

/-- C9: the add-sub pipeline with add_value 2.5 and sub_value 4.8 on request
input [3.2, 5.7, -2.4] returns OK with exactly one output, values
[0.9, 3.4, -4.7], shape [1, 3], FP32 preserved; the rational model is
exact, hence within the 0.001 tolerance of the test. -/
theorem C9_add_sub_pipeline :
    addSubPipelineExecute (5/2) (24/5) [16/5, 57/10, -12/5]
      = (StatusCode.OK,
         [("pipeline_output",
           { precision := CustomNodeTensorPrecision.FP32, dims := [1, 3],
             values := [9/10, 17/5, -47/10] })]) := by
  simp only [addSubPipelineExecute, addSubNodeExecute, entryNodeTensor,
    pipelineOutputName, List.map, List.length_cons, List.length_nil]
  norm_num

/-- C10: createDefinition is atomic on a validation failure: it returns the
validation error, the subscriptions made for the new definition are reset,
the registry is unchanged and the name still does not exist, so a later
createDefinition with the same name is not rejected as a duplicate. -/
theorem C10_create_definition_atomic_on_error (f : Factory)
    (subs : List String) (n : String) (err : StatusCode)
    (h : definitionExists f n = false) :
    factoryCreateDefinition f subs n false err = (err, f, subs)
    ∧ definitionExists (factoryCreateDefinition f subs n false err).2.1 n = false
    ∧ (factoryCreateDefinition f subs n true err).1 = StatusCode.OK := by
  refine ⟨?_, ?_, ?_⟩
  · simp [factoryCreateDefinition, h, List.erase_cons_head]
  · simp [factoryCreateDefinition, h]
  · simp [factoryCreateDefinition, h]

/-- Witness for C10 at an empty registry. -/
theorem C10_create_definition_atomic_on_error_witness :
    definitionExists [] "p" = false
    ∧ factoryCreateDefinition [] ["q"] "p" false StatusCode.NODE_LIBRARY_INVALID_PATH
        = (StatusCode.NODE_LIBRARY_INVALID_PATH, [], ["q"])
    ∧ (factoryCreateDefinition [] ["q"] "p" true
        StatusCode.NODE_LIBRARY_INVALID_PATH).1 = StatusCode.OK :=
  ⟨by decide,
   (C10_create_definition_atomic_on_error [] ["q"] "p"
      StatusCode.NODE_LIBRARY_INVALID_PATH (by decide)).1,
   (C10_create_definition_atomic_on_error [] ["q"] "p"
      StatusCode.NODE_LIBRARY_INVALID_PATH (by decide)).2.2⟩
